import Mathlib

/-!
Verification of the nautilus-server orders core (src/nautilus-server/src/orders/):
the data model (`order.rs`), the disposition mapper `make_response`, the signing
envelope `signing_message`/`sign_response`, and the key manager (`crypto.rs`).

Modelling conventions:
- Rust machine integers are `Nat` with explicit bounds/truncation where overflow
  matters (`u8` < 256, `u64` < 2^64, `as u64` is `% 2^64`).
- Rust `String` values are modelled by their UTF-8 byte sequence (`List Nat`),
  which is exactly what the BCS encoder consumes.
- The wall clock (`SystemTime::now().duration_since(UNIX_EPOCH)`) is passed in
  as an explicit `Option Nat` (milliseconds, `none` = clock error).
- The process-global `OnceCell<SigningKey>` is explicit state of type
  `Option SigningKey`, threaded through the crypto operations; the randomness
  source (`getrandom`) is an explicit `Option` seed argument.
- The ed25519_dalek primitives (external crate) are modelled as an idealized
  deterministic signature scheme: a signature is a token recording the signer's
  public key and the exact message bytes, and verification succeeds precisely
  on that key and message. This matches the spec's contract for the scheme
  (deterministic signing; verification only over the exact signed bytes).
-/

namespace Nautilus

/-- A byte. All encoder outputs have entries < 256. -/
abbrev Byte := Nat

/-! ## Data model (order.rs) -/

/-- `enum OrderAction { Initiate, Deposit, Release, Refund }`. -/
inductive OrderAction where
  | initiate
  | deposit
  | release
  | refund
deriving DecidableEq, Repr

/-- `enum OrderStatus { Pending, Escrowed, Released, Refunded, Rejected }`. -/
inductive OrderStatus where
  | pending
  | escrowed
  | released
  | refunded
  | rejected
deriving DecidableEq, Repr

/-- `serde_json::Value`, the type of the request's optional `metadata` field.
It never flows into the response, so only its shape matters here. -/
inductive Json where
  | null
  | jbool (b : Bool)
  | jnum (n : Int)
  | jstr (s : List Byte)
  | jarr (elems : List Json)
  | jobj (fields : List (List Byte × Json))

/-- `struct OrderRequest` from order.rs. -/
structure OrderRequest where
  version : Nat
  order_id : List Byte
  customer : List Byte
  merchant : List Byte
  amount : Nat
  currency : List Byte
  action : OrderAction
  client_timestamp_ms : Option Nat
  metadata : Option Json

/-- `struct SignableOrderResponse` from order.rs: exactly these nine fields,
in declaration order (the order BCS serializes them in). -/
structure SignableOrderResponse where
  version : Nat
  order_id : List Byte
  action : OrderAction
  status : OrderStatus
  amount : Nat
  currency : List Byte
  server_timestamp_ms : Nat
  escrow_tx_id : Option (List Byte)
  notes : Option (List Byte)
deriving DecidableEq, Repr

/-- The Rust typing invariant of `SignableOrderResponse`: `version: u8`,
`amount: u64`, `server_timestamp_ms: u64`. Every value the Rust program can
construct satisfies it; the `Nat` model is wider, so bound-sensitive theorems
assume it. -/
def WFResponse (r : SignableOrderResponse) : Prop :=
  r.version < 256 ∧ r.amount < 2 ^ 64 ∧ r.server_timestamp_ms < 2 ^ 64

instance (r : SignableOrderResponse) : Decidable (WFResponse r) := by
  unfold WFResponse; infer_instance

/-! ## BCS canonical encoding (`bcs::to_bytes` on `SignableOrderResponse`)

BCS encodes, in field declaration order: `u8` as one byte, `u64` as eight
little-endian bytes, a string as a ULEB128 byte-length followed by its UTF-8
bytes, an `Option` as a `0`/`1` tag byte followed by the payload when present,
and an enum as the ULEB128 variant index. -/

/-- ULEB128 worker. `fuel ≥ n` makes the fuel sufficient, since `n` shrinks by
a factor of 128 each step; fuel recursion keeps the definition structural so
that it reduces in the kernel. -/
def ulebAux : Nat → Nat → List Byte
  | 0, n => [n % 128]
  | fuel + 1, n => if n < 128 then [n] else (n % 128 + 128) :: ulebAux fuel (n / 128)

/-- ULEB128 encoding of a natural number, as used by BCS for lengths and
enum variant indices. -/
def uleb128 (n : Nat) : List Byte := ulebAux n n

/-- `u8` encoding: the single byte itself. -/
def encodeU8 (n : Nat) : List Byte := [n % 256]

/-- `u64` encoding: eight little-endian bytes. -/
def u64le (n : Nat) : List Byte :=
  [n % 256, n / 2 ^ 8 % 256, n / 2 ^ 16 % 256, n / 2 ^ 24 % 256,
   n / 2 ^ 32 % 256, n / 2 ^ 40 % 256, n / 2 ^ 48 % 256, n / 2 ^ 56 % 256]

/-- String encoding: ULEB128 byte length, then the UTF-8 bytes. -/
def encString (s : List Byte) : List Byte := uleb128 s.length ++ s

/-- `Option<String>` encoding: tag byte `0` for `None`, `1` then the string
for `Some`. -/
def encOptString : Option (List Byte) → List Byte
  | none => [0]
  | some s => 1 :: encString s

/-- `OrderAction` variant index in declaration order. -/
def actionIndex : OrderAction → Nat
  | .initiate => 0
  | .deposit => 1
  | .release => 2
  | .refund => 3

/-- `OrderStatus` variant index in declaration order. -/
def statusIndex : OrderStatus → Nat
  | .pending => 0
  | .escrowed => 1
  | .released => 2
  | .refunded => 3
  | .rejected => 4

/-- Enum encoding: ULEB128 of the variant index (all fieldless variants). -/
def encAction (a : OrderAction) : List Byte := uleb128 (actionIndex a)

/-- Enum encoding: ULEB128 of the variant index (all fieldless variants). -/
def encStatus (s : OrderStatus) : List Byte := uleb128 (statusIndex s)

/-- `bcs::to_bytes(resp)`: the canonical encoding of a `SignableOrderResponse`,
fields concatenated in declaration order. -/
def bcsEncode (r : SignableOrderResponse) : List Byte :=
  encodeU8 r.version ++ encString r.order_id ++ encAction r.action ++
    encStatus r.status ++ u64le r.amount ++ encString r.currency ++
    u64le r.server_timestamp_ms ++ encOptString r.escrow_tx_id ++
    encOptString r.notes

/-! ## Base64 (base64::engine::general_purpose::STANDARD) -/

/-- The standard base64 alphabet character for a 6-bit value. -/
def b64char (i : Nat) : Char :=
  "ABCDEFGHIJKLMNOPQRSTUVWXYZabcdefghijklmnopqrstuvwxyz0123456789+/".toList.getD i 'A'

/-- Standard base64 with padding, three input bytes per four output chars. -/
def b64encodeList : List Byte → List Char
  | [] => []
  | [a] => [b64char (a / 4), b64char (a % 4 * 16), '=', '=']
  | [a, b] => [b64char (a / 4), b64char (a % 4 * 16 + b / 16), b64char (b % 16 * 4), '=']
  | a :: b :: c :: rest =>
      b64char (a / 4) :: b64char (a % 4 * 16 + b / 16) ::
        b64char (b % 16 * 4 + c / 64) :: b64char (c % 64) :: b64encodeList rest

/-- `B64.encode`: standard base64 rendering of a byte sequence. -/
def b64encode (l : List Byte) : String := String.mk (b64encodeList l)

/-! ## Key manager (crypto.rs) -/

/-- `ed25519_dalek::SigningKey`, derived from a 32-byte seed
(`SigningKey::from_bytes`). -/
structure SigningKey where
  seed : List Byte
deriving DecidableEq, Repr

/-- `SigningKey::from_bytes(&seed)`. -/
def keyFromSeed (seed : List Byte) : SigningKey := ⟨seed⟩

/-- `sk.verifying_key().to_bytes()`: the public key bytes determined by the
signing key. The concrete curve arithmetic is outside this model; what the
spec relies on is only that the public key is a function of the stored key,
so the derivation is modelled as the identity on the seed (an injective,
deterministic derivation). -/
def verifyingKeyBytes (sk : SigningKey) : List Byte := sk.seed

/-- An ed25519 signature, idealized: it determines the signer's public key and
the exact message bytes that were signed. -/
structure Ed25519Sig where
  pk : List Byte
  msg : List Byte
deriving DecidableEq, Repr

/-- `sk.sign(message)` of ed25519_dalek: deterministic (RFC 8032 ed25519 uses
no random nonce), a pure function of key and message. -/
def edSign (sk : SigningKey) (m : List Byte) : Ed25519Sig :=
  ⟨verifyingKeyBytes sk, m⟩

/-- Ed25519 signature verification, idealized per the spec's contract: a
signature verifies under public key `pk` over message `m` exactly when it was
produced by the key with public key `pk` over exactly the bytes `m`. -/
def edVerify (pk : List Byte) (m : List Byte) (sig : Ed25519Sig) : Bool :=
  decide (sig.pk = pk ∧ sig.msg = m)

/-- `sig.to_bytes()`: the wire serialization of a signature. In the idealized
scheme the signature token serializes to its components. -/
def sigBytes (sig : Ed25519Sig) : List Byte := sig.pk ++ sig.msg

/-- The `static SIGNING_KEY: OnceCell<SigningKey>` slot: empty or holding the
key stored by the one successful initialization. -/
abbrev CryptoState := Option SigningKey

/-- The error value `ensure_initialized` returns when `getrandom` fails. -/
inductive InitError where
  | rng_unavailable
deriving DecidableEq, Repr

/-- Outcome of a crypto operation that may panic (`.expect(...)` in Rust). -/
inductive CryptoOutcome (α : Type) where
  | ok (a : α)
  | panicked (msg : String)
deriving DecidableEq, Repr

/-- `crypto::ensure_initialized()` with the OnceCell state and the randomness
source explicit. `OnceCell::get_or_try_init`: if a key is stored, return it
untouched; otherwise run the initializer, which draws 32 seed bytes from
`getrandom` (here: `rng`, `none` when the source cannot supply bytes, in which
case the initializer fails with `"rng_unavailable"` and nothing is stored). -/
def ensure_initialized (rng : Option (List Byte)) (st : CryptoState) :
    Except InitError Unit × CryptoState :=
  match st with
  | some sk => (Except.ok (), some sk)
  | none =>
    match rng with
    | none => (Except.error InitError.rng_unavailable, none)
    | some seed => (Except.ok (), some (keyFromSeed seed))

/-- `crypto::public_key_base64()`: panics via
`.expect("crypto::ensure_initialized must be called first")` when the slot is
empty; otherwise base64 of the verifying key bytes. -/
def public_key_base64 (st : CryptoState) : CryptoOutcome String :=
  match st with
  | none => .panicked "crypto::ensure_initialized must be called first"
  | some sk => .ok (b64encode (verifyingKeyBytes sk))

/-- `crypto::sign(message)`: panics via the same `.expect` when the slot is
empty; otherwise the ed25519 signature over exactly the given bytes. -/
def sign (st : CryptoState) (message : List Byte) : CryptoOutcome Ed25519Sig :=
  match st with
  | none => .panicked "crypto::ensure_initialized must be called first"
  | some sk => .ok (edSign sk message)

/-! ## Orders pipeline (order.rs) -/

/-- `const DOMAIN_TAG: &[u8] = b"nautilus/order/v1"`. -/
def DOMAIN_TAG : List Byte := "nautilus/order/v1".toList.map Char.toNat

/-- `signing_message(resp)`: the domain tag followed by the BCS bytes. -/
def signing_message (resp : SignableOrderResponse) : List Byte :=
  DOMAIN_TAG ++ bcsEncode resp

/-- `unix_time_ms()`: wall-clock milliseconds since epoch, truncated
`as u64`; `0` when `duration_since(UNIX_EPOCH)` errors (`unwrap_or(0)`). -/
def unix_time_ms (clock : Option Nat) : Nat :=
  match clock with
  | some ms => ms % 2 ^ 64
  | none => 0

/-- `struct SignedOrderResponse` from order.rs. -/
structure SignedOrderResponse where
  response : SignableOrderResponse
  signature : String
  public_key : String
  scheme : String
deriving DecidableEq, Repr

/-- `make_response(req)`, with the wall clock explicit. Maps the action to a
status and notes, copies `version`, `order_id`, `action`, `amount`, `currency`
from the request, stamps the server time, leaves `escrow_tx_id` absent. -/
def make_response (clock : Option Nat) (req : OrderRequest) : SignableOrderResponse :=
  let server_ts := unix_time_ms clock
  let sn : OrderStatus × Option (List Byte) :=
    match req.action with
    | .initiate => (.pending, none)
    | .deposit => (.escrowed, none)
    | .release => (.released, none)
    | .refund => (.refunded, none)
  { version := req.version
    order_id := req.order_id
    action := req.action
    status := sn.1
    amount := req.amount
    currency := req.currency
    server_timestamp_ms := server_ts
    escrow_tx_id := none
    notes := sn.2 }

/-- `sign_response(resp)`, with the key-manager state explicit: builds the
signing message, calls `crypto::sign` and `crypto::public_key_base64` (which
panic when the slot is empty), and assembles the signed artifact. -/
def sign_response (st : CryptoState) (resp : SignableOrderResponse) :
    CryptoOutcome SignedOrderResponse :=
  match st with
  | none => .panicked "crypto::ensure_initialized must be called first"
  | some sk =>
    .ok { response := resp
          signature := b64encode (sigBytes (edSign sk (signing_message resp)))
          public_key := b64encode (verifyingKeyBytes sk)
          scheme := "ed25519" }

/-! ## BCS decoders

Used only in proofs: each decoder consumes exactly the bytes its encoder
produced and returns the decoded value plus the unconsumed tail, which yields
injectivity of the canonical encoding. -/

/-- Decode one byte. -/
def decodeU8 : List Byte → Option (Nat × List Byte)
  | [] => none
  | b :: rest => some (b, rest)

/-- Decode a ULEB128 value: continuation bit 0x80, 7 payload bits per byte,
least-significant group first. -/
def decodeUleb : List Byte → Option (Nat × List Byte)
  | [] => none
  | b :: rest =>
    if b < 128 then some (b, rest)
    else
      match decodeUleb rest with
      | some (m, r) => some (m * 128 + (b - 128), r)
      | none => none

/-- Decode a ULEB128 length, then that many content bytes. -/
def decodeString (l : List Byte) : Option (List Byte × List Byte) :=
  match decodeUleb l with
  | some (n, r) => if n ≤ r.length then some (r.take n, r.drop n) else none
  | none => none

/-- Decode an `OrderAction` from its variant-index byte. -/
def decodeAction (l : List Byte) : Option (OrderAction × List Byte) :=
  match l with
  | [] => none
  | t :: rest =>
    if t = 0 then some (.initiate, rest)
    else if t = 1 then some (.deposit, rest)
    else if t = 2 then some (.release, rest)
    else if t = 3 then some (.refund, rest)
    else none

/-- Decode an `OrderStatus` from its variant-index byte. -/
def decodeStatus (l : List Byte) : Option (OrderStatus × List Byte) :=
  match l with
  | [] => none
  | t :: rest =>
    if t = 0 then some (.pending, rest)
    else if t = 1 then some (.escrowed, rest)
    else if t = 2 then some (.released, rest)
    else if t = 3 then some (.refunded, rest)
    else if t = 4 then some (.rejected, rest)
    else none

/-- Decode eight little-endian bytes into a `u64` value. -/
def decodeU64 : List Byte → Option (Nat × List Byte)
  | b0 :: b1 :: b2 :: b3 :: b4 :: b5 :: b6 :: b7 :: rest =>
    some (b0 + 2 ^ 8 * b1 + 2 ^ 16 * b2 + 2 ^ 24 * b3 + 2 ^ 32 * b4 + 2 ^ 40 * b5
      + 2 ^ 48 * b6 + 2 ^ 56 * b7, rest)
  | _ => none

/-- Decode an `Option<String>` from its tag byte and payload. -/
def decodeOptString (l : List Byte) : Option (Option (List Byte) × List Byte) :=
  match l with
  | [] => none
  | t :: rest =>
    if t = 0 then some (none, rest)
    else if t = 1 then
      match decodeString rest with
      | some (s, r) => some (some s, r)
      | none => none
    else none

/-- Decode a whole `SignableOrderResponse`, fields in declaration order. -/
def decodeResponse (l : List Byte) : Option (SignableOrderResponse × List Byte) := do
  let (version, l) ← decodeU8 l
  let (order_id, l) ← decodeString l
  let (action, l) ← decodeAction l
  let (status, l) ← decodeStatus l
  let (amount, l) ← decodeU64 l
  let (currency, l) ← decodeString l
  let (server_timestamp_ms, l) ← decodeU64 l
  let (escrow_tx_id, l) ← decodeOptString l
  let (notes, l) ← decodeOptString l
  pure ({ version, order_id, action, status, amount, currency, server_timestamp_ms,
          escrow_tx_id, notes }, l)

/-! ## Round-trip lemmas -/

lemma decodeU8_enc (v : Nat) (hv : v < 256) (r : List Byte) :
    decodeU8 (encodeU8 v ++ r) = some (v, r) := by
  simp [decodeU8, encodeU8, Nat.mod_eq_of_lt hv]

lemma decodeUleb_ulebAux (fuel : Nat) :
    ∀ n, n ≤ fuel → ∀ r, decodeUleb (ulebAux fuel n ++ r) = some (n, r) := by
  induction fuel with
  | zero =>
    intro n hn r
    have hn0 : n = 0 := Nat.le_zero.mp hn
    subst hn0
    simp [ulebAux, decodeUleb]
  | succ fuel ih =>
    intro n hn r
    by_cases h : n < 128
    · simp [ulebAux, h, decodeUleb]
    · have hstep : n / 128 ≤ fuel := by omega
      have hb : ¬ (n % 128 + 128 < 128) := by omega
      simp only [ulebAux, if_neg h, List.cons_append, decodeUleb, if_neg hb,
        ih (n / 128) hstep r]
      simp only [Option.some.injEq, Prod.mk.injEq]
      exact ⟨by omega, trivial⟩

lemma decodeUleb_uleb (n : Nat) (r : List Byte) :
    decodeUleb (uleb128 n ++ r) = some (n, r) :=
  decodeUleb_ulebAux n n le_rfl r

lemma decodeString_enc (s : List Byte) (r : List Byte) :
    decodeString (encString s ++ r) = some (s, r) := by
  simp only [decodeString, encString, List.append_assoc, decodeUleb_uleb]
  rw [if_pos (by simp)]
  simp [List.take_left, List.drop_left]

lemma decodeAction_enc (a : OrderAction) (r : List Byte) :
    decodeAction (encAction a ++ r) = some (a, r) := by
  cases a <;> rfl

lemma decodeStatus_enc (s : OrderStatus) (r : List Byte) :
    decodeStatus (encStatus s ++ r) = some (s, r) := by
  cases s <;> rfl

lemma decodeU64_enc (n : Nat) (hn : n < 2 ^ 64) (r : List Byte) :
    decodeU64 (u64le n ++ r) = some (n, r) := by
  simp only [u64le, List.cons_append, List.nil_append, decodeU64,
    Option.some.injEq, Prod.mk.injEq]
  exact ⟨by omega, trivial⟩

lemma decodeOptString_enc (o : Option (List Byte)) (r : List Byte) :
    decodeOptString (encOptString o ++ r) = some (o, r) := by
  cases o with
  | none => rfl
  | some s =>
    simp [encOptString, decodeOptString, decodeString_enc]

lemma decodeResponse_enc (resp : SignableOrderResponse) (h : WFResponse resp)
    (r : List Byte) : decodeResponse (bcsEncode resp ++ r) = some (resp, r) := by
  obtain ⟨h1, h2, h3⟩ := h
  simp only [bcsEncode, List.append_assoc, decodeResponse, Option.bind_eq_bind,
    decodeU8_enc _ h1, decodeString_enc, decodeAction_enc, decodeStatus_enc,
    decodeU64_enc _ h2, decodeU64_enc _ h3, decodeOptString_enc, Option.some_bind]
  rfl

/-! ## Multi-call runs of the initializer -/

/-- Run `ensure_initialized` once per entry of `rngs` (each entry the
randomness available to that call), collecting the results and the final
slot state. -/
def run_inits : List (Option (List Byte)) → CryptoState →
    List (Except InitError Unit) × CryptoState
  | [], st => ([], st)
  | rng :: rest, st =>
    let step := ensure_initialized rng st
    let next := run_inits rest step.2
    (step.1 :: next.1, next.2)

/-! ## Sample values, used by the concrete witnesses -/

/-- A sample request (the spec's scenario 1: order `o1`, 500 USD, Deposit). -/
def sampleRequest : OrderRequest :=
  { version := 1
    order_id := "o1".toList.map Char.toNat
    customer := "c".toList.map Char.toNat
    merchant := "m".toList.map Char.toNat
    amount := 500
    currency := "USD".toList.map Char.toNat
    action := .deposit
    client_timestamp_ms := none
    metadata := none }

/-- The sample request with different `customer`, `merchant`, `metadata`. -/
def sampleRequestVariant : OrderRequest :=
  { sampleRequest with
      customer := "c2".toList.map Char.toNat
      merchant := "m2".toList.map Char.toNat
      metadata := some Json.null }

/-- The response `make_response` produces for `sampleRequest` at clock
reading 1700000000000 ms. -/
def sampleResponse : SignableOrderResponse :=
  make_response (some 1700000000000) sampleRequest

/-- A sample signing key. -/
def sampleKey : SigningKey := keyFromSeed (List.replicate 32 7)

/-! ## Claim theorems -/

/-- C1: `sign_response` signs exactly `DOMAIN_TAG ++ bcs::to_bytes(resp)`:
the signature it embeds is the (deterministic) ed25519 signature over
precisely that byte string; that signature verifies under the embedded
public key over that exact byte string, and fails to verify over any other
byte string (in particular any bit flip in the tag or the canonical bytes). -/
theorem sign_response_signs_exactly_tagged_bcs (sk : SigningKey)
    (resp : SignableOrderResponse) (m' : List Byte)
    (hm : m' ≠ signing_message resp) :
    sign_response (some sk) resp =
      CryptoOutcome.ok
        { response := resp
          signature := b64encode (sigBytes (edSign sk (DOMAIN_TAG ++ bcsEncode resp)))
          public_key := b64encode (verifyingKeyBytes sk)
          scheme := "ed25519" } ∧
    edVerify (verifyingKeyBytes sk) (signing_message resp)
      (edSign sk (signing_message resp)) = true ∧
    edVerify (verifyingKeyBytes sk) m'
      (edSign sk (signing_message resp)) = false := by
  refine ⟨rfl, ?_, ?_⟩
  · simp [edVerify, edSign]
  · simp only [edVerify, edSign, decide_eq_false_iff_not]
    rintro ⟨-, h2⟩
    exact hm h2.symm

/-- Witness for C1 at a concrete key, response, and non-message byte string. -/
theorem sign_response_signs_exactly_tagged_bcs_witness :
    ([] : List Byte) ≠ signing_message sampleResponse ∧
    (sign_response (some sampleKey) sampleResponse =
      CryptoOutcome.ok
        { response := sampleResponse
          signature :=
            b64encode (sigBytes (edSign sampleKey (DOMAIN_TAG ++ bcsEncode sampleResponse)))
          public_key := b64encode (verifyingKeyBytes sampleKey)
          scheme := "ed25519" } ∧
    edVerify (verifyingKeyBytes sampleKey) (signing_message sampleResponse)
      (edSign sampleKey (signing_message sampleResponse)) = true ∧
    edVerify (verifyingKeyBytes sampleKey) []
      (edSign sampleKey (signing_message sampleResponse)) = false) :=
  ⟨by decide, sign_response_signs_exactly_tagged_bcs sampleKey sampleResponse [] (by decide)⟩

/-- C2: for every request, `make_response` yields status Pending for
Initiate, Escrowed for Deposit, Released for Release, Refunded for Refund;
`notes` is absent in all four cases, and the status is never `Rejected`. -/
theorem make_response_status_table (clock : Option Nat) (req : OrderRequest) :
    (make_response clock req).status =
      (match req.action with
        | .initiate => OrderStatus.pending
        | .deposit => OrderStatus.escrowed
        | .release => OrderStatus.released
        | .refund => OrderStatus.refunded) ∧
    (make_response clock req).notes = none ∧
    (make_response clock req).status ≠ OrderStatus.rejected := by
  rcases hr : req.action <;> simp [make_response, hr]

/-- C4 counterexample: two requests that differ in `customer`, `merchant`
and `metadata` produce identical responses — `SignableOrderResponse` has no
such fields, so those request fields are dropped, not passed through. -/
theorem request_fields_dropped_counterexample :
    make_response (some 1700000000000) sampleRequest =
      make_response (some 1700000000000) sampleRequestVariant ∧
    sampleRequest.customer ≠ sampleRequestVariant.customer ∧
    sampleRequest.merchant ≠ sampleRequestVariant.merchant ∧
    sampleRequest.metadata = none ∧
    sampleRequestVariant.metadata ≠ none :=
  ⟨rfl, by decide, by decide, rfl, fun h => Option.noConfusion h⟩

/-- C4 amended: `version`, `order_id`, `amount`, `currency` (and `action`)
are copied verbatim into the response, with no validation of any of them;
`customer`, `merchant`, `client_timestamp_ms` and `metadata` are dropped —
any two requests agreeing on the copied fields yield identical responses. -/
theorem make_response_passthrough_fields (clock : Option Nat)
    (req req' : OrderRequest)
    (hv : req'.version = req.version) (ho : req'.order_id = req.order_id)
    (ha : req'.amount = req.amount) (hc : req'.currency = req.currency)
    (hact : req'.action = req.action) :
    (make_response clock req).version = req.version ∧
    (make_response clock req).order_id = req.order_id ∧
    (make_response clock req).amount = req.amount ∧
    (make_response clock req).currency = req.currency ∧
    (make_response clock req).action = req.action ∧
    make_response clock req' = make_response clock req := by
  refine ⟨rfl, rfl, rfl, rfl, rfl, ?_⟩
  unfold make_response
  rw [hv, ho, ha, hc, hact]

/-- Witness for C4's amended theorem: the two sample requests agree on the
copied fields (differing in `customer`, `merchant`, `metadata`). -/
theorem make_response_passthrough_fields_witness :
    sampleRequestVariant.version = sampleRequest.version ∧
    sampleRequestVariant.order_id = sampleRequest.order_id ∧
    sampleRequestVariant.amount = sampleRequest.amount ∧
    sampleRequestVariant.currency = sampleRequest.currency ∧
    sampleRequestVariant.action = sampleRequest.action ∧
    ((make_response (some 1700000000000) sampleRequest).version = sampleRequest.version ∧
     (make_response (some 1700000000000) sampleRequest).order_id = sampleRequest.order_id ∧
     (make_response (some 1700000000000) sampleRequest).amount = sampleRequest.amount ∧
     (make_response (some 1700000000000) sampleRequest).currency = sampleRequest.currency ∧
     (make_response (some 1700000000000) sampleRequest).action = sampleRequest.action ∧
     make_response (some 1700000000000) sampleRequestVariant =
       make_response (some 1700000000000) sampleRequest) :=
  ⟨rfl, rfl, rfl, rfl, rfl,
    make_response_passthrough_fields (some 1700000000000) sampleRequest
      sampleRequestVariant rfl rfl rfl rfl rfl⟩

/-- C5: the canonical (BCS) encoding is deterministic and injective on
`SignableOrderResponse` values satisfying the Rust u8/u64 typing bounds:
two responses have equal encodings iff they are equal field-for-field. -/
theorem canonical_encoding_deterministic_injective
    (r1 r2 : SignableOrderResponse) (h1 : WFResponse r1) (h2 : WFResponse r2) :
    bcsEncode r1 = bcsEncode r2 ↔ r1 = r2 := by
  constructor
  · intro he
    have d1 := decodeResponse_enc r1 h1 []
    have d2 := decodeResponse_enc r2 h2 []
    rw [List.append_nil] at d1 d2
    rw [he, d2] at d1
    simp only [Option.some.injEq, Prod.mk.injEq, and_true] at d1
    exact d1.symm
  · intro he
    rw [he]

/-- Witness for C5 at a concrete well-formed response. -/
theorem canonical_encoding_deterministic_injective_witness :
    WFResponse sampleResponse ∧
    (bcsEncode sampleResponse = bcsEncode sampleResponse ↔
      sampleResponse = sampleResponse) :=
  ⟨by decide,
    canonical_encoding_deterministic_injective sampleResponse sampleResponse
      (by decide) (by decide)⟩

/-- C3 (code divergence): with the key slot uninitialized, both
`public_key_base64` and `sign` panic via `.expect(...)` with the message
below; crypto.rs has no typed `UninitializedKey` error at all. -/
theorem uninitialized_access_panics :
    public_key_base64 none =
      CryptoOutcome.panicked "crypto::ensure_initialized must be called first" ∧
    ∀ m : List Byte,
      sign none m =
        CryptoOutcome.panicked "crypto::ensure_initialized must be called first" :=
  ⟨rfl, fun _ => rfl⟩

/-- C6: `ensure_initialized` is idempotent: once a first call has succeeded
(storing some key `sk`), any further sequence of calls — whatever randomness
each would see — returns success every time and leaves the same key stored,
so exactly one key is ever generated and every success observes the same
public key. -/
theorem ensure_initialized_idempotent (rng0 : Option (List Byte))
    (rngs : List (Option (List Byte)))
    (h : (ensure_initialized rng0 none).1 = Except.ok ()) :
    ∃ sk : SigningKey,
      (ensure_initialized rng0 none).2 = some sk ∧
      run_inits rngs (some sk) =
        (rngs.map (fun _ => Except.ok ()), some sk) := by
  have key : ∀ (l : List (Option (List Byte))) (sk : SigningKey),
      run_inits l (some sk) = (l.map (fun _ => Except.ok ()), some sk) := by
    intro l sk
    induction l with
    | nil => rfl
    | cons rng rest ih => simp [run_inits, ensure_initialized, ih]
  cases rng0 with
  | none => simp [ensure_initialized] at h
  | some seed => exact ⟨keyFromSeed seed, rfl, key rngs _⟩

/-- Witness for C6: a successful first call, then three further calls. -/
theorem ensure_initialized_idempotent_witness :
    (ensure_initialized (some (List.replicate 32 7)) none).1 = Except.ok () ∧
    ∃ sk : SigningKey,
      (ensure_initialized (some (List.replicate 32 7)) none).2 = some sk ∧
      run_inits [none, some [1, 2], some (List.replicate 32 9)] (some sk) =
        ([none, some [1, 2], some (List.replicate 32 9)].map
          (fun _ => Except.ok ()), some sk) :=
  ⟨rfl,
    ensure_initialized_idempotent (some (List.replicate 32 7))
      [none, some [1, 2], some (List.replicate 32 9)] rfl⟩

/-- C7: on an initialized key, `sign_response` returns exactly the input
response unchanged, the base64 rendering of the raw signature bytes (the
signature `crypto::sign` returns over the signing message), the base64
rendering of the key's public key (what `crypto::public_key_base64`
returns), and the literal scheme string `"ed25519"`. -/
theorem sign_response_assembles_fields (sk : SigningKey)
    (resp : SignableOrderResponse) :
    sign_response (some sk) resp =
      CryptoOutcome.ok
        { response := resp
          signature := b64encode (sigBytes (edSign sk (signing_message resp)))
          public_key := b64encode (verifyingKeyBytes sk)
          scheme := "ed25519" } ∧
    sign (some sk) (signing_message resp) =
      CryptoOutcome.ok (edSign sk (signing_message resp)) ∧
    public_key_base64 (some sk) =
      CryptoOutcome.ok (b64encode (verifyingKeyBytes sk)) :=
  ⟨rfl, rfl, rfl⟩

/-- C9: signing is deterministic for a fixed initialized key: equal messages
yield equal signatures, and `sign_response` on field-for-field equal
responses yields identical outputs, in particular byte-identical signature
strings. -/
theorem signing_deterministic (sk : SigningKey) (m1 m2 : List Byte)
    (hm : m1 = m2) (r1 r2 : SignableOrderResponse) (hr : r1 = r2) :
    sign (some sk) m1 = sign (some sk) m2 ∧
    sign_response (some sk) r1 = sign_response (some sk) r2 ∧
    b64encode (sigBytes (edSign sk (signing_message r1))) =
      b64encode (sigBytes (edSign sk (signing_message r2))) := by
  subst hm
  subst hr
  exact ⟨rfl, rfl, rfl⟩

/-- Witness for C9 at a concrete key, message, and response. -/
theorem signing_deterministic_witness :
    ([1, 2] : List Byte) = [1, 2] ∧ sampleResponse = sampleResponse ∧
    (sign (some sampleKey) [1, 2] = sign (some sampleKey) [1, 2] ∧
     sign_response (some sampleKey) sampleResponse =
       sign_response (some sampleKey) sampleResponse ∧
     b64encode (sigBytes (edSign sampleKey (signing_message sampleResponse))) =
       b64encode (sigBytes (edSign sampleKey (signing_message sampleResponse)))) :=
  ⟨rfl, rfl,
    signing_deterministic sampleKey [1, 2] [1, 2] rfl sampleResponse sampleResponse rfl⟩

/-- C10: when the randomness source cannot supply bytes,
`ensure_initialized` returns the `rng_unavailable` error and stores nothing
(the slot stays empty, not poisoned); a later call with randomness available
still initializes and succeeds. -/
theorem rng_failure_leaves_slot_empty (seed : List Byte) :
    ensure_initialized none none = (Except.error InitError.rng_unavailable, none) ∧
    ensure_initialized (some seed) (ensure_initialized none none).2 =
      (Except.ok (), some (keyFromSeed seed)) :=
  ⟨rfl, rfl⟩

/-- C8: the response's `server_timestamp_ms` is the wall clock reading in
integer milliseconds since epoch (truncated `as u64`); when the clock is
unavailable the sentinel value 0 is substituted, and `make_response` still
returns normally (it is a total function of clock and request). -/
theorem make_response_timestamp_clock_sentinel (clock : Option Nat)
    (req : OrderRequest) :
    (make_response clock req).server_timestamp_ms = unix_time_ms clock ∧
    (make_response none req).server_timestamp_ms = 0 ∧
    (∀ ms : Nat, unix_time_ms (some ms) = ms % 2 ^ 64) ∧
    unix_time_ms none = 0 :=
  ⟨rfl, rfl, fun _ => rfl, rfl⟩

end Nautilus
